import Mathlib

/-!
Verification of the resilient multi-endpoint RPC access layer of the
solbot repository: token-bucket rate limiter (`RateLimiter`), per-endpoint
circuit breaker, endpoint health scoring and selection (`TokenMonitor`),
request-queue dispatch, and the wallet tracker's signature de-duplication
cache (`WalletTracker`).

The JavaScript source is embedded shallowly: JavaScript numbers are modelled
as exact rationals extended with `NaN` and `undefined` (inductive `JSNum`);
mutable objects become Lean structures passed explicitly; `Date.now()`
values become explicit rational-millisecond arguments; thrown exceptions
become `Except`-style results.  Division by zero is modelled as `NaN`; the
embedded code only ever divides by zero in the `0/0` case, where JavaScript
also yields `NaN` (the `±Infinity` results of `x/0` for `x ≠ 0` are never
reached by the embedded functions, so they are not modelled).
-/

namespace Solbot

/-- A JavaScript numeric value: either a real number (modelled exactly as a
rational), `NaN`, or `undefined` (the value read from an absent object
property, which behaves as `NaN` once it enters arithmetic). -/
inductive JSNum where
  | undef : JSNum
  | nan : JSNum
  | num : ℚ → JSNum
deriving DecidableEq

/-- JavaScript addition: any non-numeric operand yields `NaN`. -/
def jsAdd : JSNum → JSNum → JSNum
  | .num a, .num b => .num (a + b)
  | _, _ => .nan

/-- JavaScript subtraction: any non-numeric operand yields `NaN`. -/
def jsSub : JSNum → JSNum → JSNum
  | .num a, .num b => .num (a - b)
  | _, _ => .nan

/-- JavaScript multiplication: any non-numeric operand yields `NaN`. -/
def jsMul : JSNum → JSNum → JSNum
  | .num a, .num b => .num (a * b)
  | _, _ => .nan

/-- JavaScript division.  `0/0` is `NaN`; non-numeric operands give `NaN`.
(`x/0` with `x ≠ 0` would be `±Infinity` in JavaScript; the embedded code
never reaches that case, so it is mapped to `NaN` here as well.) -/
def jsDiv : JSNum → JSNum → JSNum
  | .num a, .num b => if b = 0 then .nan else .num (a / b)
  | _, _ => .nan

/-- `Math.max` on two values: `NaN` (or `undefined`) poisons the result. -/
def jsMax : JSNum → JSNum → JSNum
  | .num a, .num b => .num (max a b)
  | _, _ => .nan

/-- The JavaScript `>` comparison: false whenever an operand is not a
number (`NaN > x`, `undefined > x` are false). -/
def jsGt : JSNum → JSNum → Bool
  | .num a, .num b => decide (b < a)
  | _, _ => false

/-- Helper for `String.prototype.includes`: does the character list contain
`pat` as a contiguous sub-list? -/
def includesAux (pat : List Char) : List Char → Bool
  | [] => pat.isEmpty
  | c :: rest => pat.isPrefixOf (c :: rest) || includesAux pat rest

/-- `String.prototype.includes`. -/
def jsIncludes (s pat : String) : Bool :=
  includesAux pat.data s.data

/-- The per-endpoint metrics record.  The first block of fields is exactly
what `TokenMonitor.initializeEndpointMetrics` creates; the second block
lists the properties that `executeWithCircuitBreaker`,
`calculateEndpointScore` and `getEndpointHealth` read or write but that
`initializeEndpointMetrics` does not create — reading them on a fresh
record yields `undefined`, hence their `JSNum`/`Option` types with
`undef`/`none` as the fresh value. -/
structure Metrics where
  successCount : ℕ
  failureCount : ℕ
  latency : List ℚ
  lastUsed : ℚ
  rateLimitHits : ℕ
  lastError : Option String
  perfSuccess : ℕ
  perfTotal : ℕ
  perfAvgLatency : ℚ
  averageLatency : JSNum
  consecutiveFailures : JSNum
  lastMinuteRequests : Option (List ℚ)
  requestsPerMinute : JSNum
  lastRateLimitHit : JSNum
deriving DecidableEq

/-- The record literal built by `TokenMonitor.initializeEndpointMetrics`
for each configured endpoint (`now` is `Date.now()` for `lastUsed`).
`averageLatency`, `consecutiveFailures`, `lastMinuteRequests`,
`requestsPerMinute` and `lastRateLimitHit` are absent from the literal. -/
def initMetrics (now : ℚ) : Metrics :=
  { successCount := 0
    failureCount := 0
    latency := []
    lastUsed := now
    rateLimitHits := 0
    lastError := none
    perfSuccess := 0
    perfTotal := 0
    perfAvgLatency := 0
    averageLatency := .undef
    consecutiveFailures := .undef
    lastMinuteRequests := none
    requestsPerMinute := .undef
    lastRateLimitHit := .undef }

/-- `TokenMonitor.initializeEndpointMetrics`: one fresh record per
configured endpoint, in configuration order (a JavaScript `Map` iterates
in insertion order). -/
def initializeEndpointMetrics (endpoints : List String) (now : ℚ) :
    List (String × Metrics) :=
  endpoints.map fun e => (e, initMetrics now)

/-- `TokenMonitor.getEndpointHealth`, the metrics part:
`0.4 * max(0, 1 - hits/10) + 0.4 * success/(success+failure)
 + 0.2 * max(0, 1 - averageLatency/1000)`. -/
def getEndpointHealthM (m : Metrics) : JSNum :=
  let rateLimitScore :=
    jsMax (.num 0) (jsSub (.num 1) (jsDiv (.num m.rateLimitHits) (.num 10)))
  let successScore :=
    jsDiv (.num m.successCount) (.num (m.successCount + m.failureCount))
  let latencyScore :=
    jsMax (.num 0) (jsSub (.num 1) (jsDiv m.averageLatency (.num 1000)))
  jsAdd (jsAdd (jsMul rateLimitScore (.num (4/10)))
               (jsMul successScore (.num (4/10))))
        (jsMul latencyScore (.num (2/10)))

/-- `TokenMonitor.getEndpointHealth`: looks the endpoint up in the metrics
map and returns `0` when there is no record. -/
def getEndpointHealth (metricsMap : String → Option Metrics) (e : String) :
    JSNum :=
  match metricsMap e with
  | none => .num 0
  | some m => getEndpointHealthM m

/-- `TokenMonitor.calculateEndpointScore`:
`0.4 * success/(success+failure) + 0.3 * (1 - averageLatency/1000)
 + 0.3 * (1 - hits/100)` — note: no clamping of the latency and
rate-limit terms. -/
def calculateEndpointScore (m : Metrics) : JSNum :=
  let successRate :=
    jsDiv (.num m.successCount) (.num (m.successCount + m.failureCount))
  let latencyScore := jsSub (.num 1) (jsDiv m.averageLatency (.num 1000))
  let rateLimitScore := jsSub (.num 1) (jsDiv (.num m.rateLimitHits) (.num 100))
  jsAdd (jsAdd (jsMul successRate (.num (4/10)))
               (jsMul latencyScore (.num (3/10))))
        (jsMul rateLimitScore (.num (3/10)))

/-- The value ECMAScript `SortCompare` derives from a user comparator call:
the comparator's numeric result, with `NaN` (and `undefined`) coerced to
`+0` (ES2023 §23.1.3.30.2). -/
def sortCompareVal (r : JSNum) : ℚ :=
  match r with
  | .num q => q
  | _ => 0

/-- One insertion step of a stable sort driven by a JavaScript comparator
`key` (negative: first argument sorts earlier; zero: keep original order). -/
def orderedInsertJS (key : α → α → ℚ) (a : α) : List α → List α
  | [] => [a]
  | b :: l => if key a b ≤ 0 then a :: b :: l else b :: orderedInsertJS key a l

/-- `Array.prototype.sort` with comparator `key`, modelled as a stable
insertion sort (ES2019+ requires sort stability; elements comparing equal,
including all-`NaN` comparator results coerced to `+0`, keep their
original relative order). -/
def jsSortWith (key : α → α → ℚ) : List α → List α
  | [] => []
  | a :: l => orderedInsertJS key a (jsSortWith key l)

/-- `TokenMonitor.isEndpointCooling`: true iff a cooldown is registered
and `Date.now()` is strictly before it.  (A registered cooldown timestamp
is always positive, so the JavaScript falsiness check on `cooldownUntil`
coincides with presence in the map.) -/
def isEndpointCooling (cooldowns : String → Option ℚ) (e : String) (now : ℚ) :
    Bool :=
  match cooldowns e with
  | none => false
  | some c => decide (now < c)

/-- `TokenMonitor.setCooldown`: registers `now + COOLDOWN_DURATION`
(60 000 ms) for the endpoint. -/
def setCooldown (cooldowns : String → Option ℚ) (e : String) (now : ℚ) :
    String → Option ℚ :=
  fun x => if x = e then some (now + 60000) else cooldowns x

/-- The comparator `(a, b) => f(b) - f(a)` (sort descending by `f`) as fed
through `SortCompare`. -/
def descKey (f : α → JSNum) (a b : α) : ℚ :=
  sortCompareVal (jsSub (f b) (f a))

/-- The endpoint-selection step of `TokenMonitor.rotateConnection`: filter
the configured endpoints to those not cooling whose `getEndpointHealth`
exceeds 0.7, sort the survivors by health descending, and take the first.
`none` models the no-healthy-endpoint branch (30 s sleep and recursive
retry — no endpoint is selected in that round). -/
def rotateSelect (endpoints : List String)
    (metricsMap : String → Option Metrics)
    (cooldowns : String → Option ℚ) (now : ℚ) : Option String :=
  let healthy := endpoints.filter fun e =>
    !isEndpointCooling cooldowns e now
      && jsGt (getEndpointHealth metricsMap e) (.num (7/10))
  (jsSortWith (descKey (getEndpointHealth metricsMap)) healthy).head?

/-- `TokenMonitor.selectBestEndpoint`: score every entry of the metrics
map (in insertion order), sort descending by score, and take the first
entry's endpoint — with no cooldown or circuit-state filtering.  `none`
only for an empty map (the source would throw on `metrics[0]`). -/
def selectBestEndpoint (entries : List (String × Metrics)) : Option String :=
  let scored := entries.map fun em => (em.1, calculateEndpointScore em.2)
  (jsSortWith (descKey Prod.snd) scored).head?.map Prod.fst

/-- `TokenMonitor.FAILURE_THRESHOLD`. -/
def FAILURE_THRESHOLD : ℕ := 3

/-- `TokenMonitor.RESET_INTERVAL` in milliseconds. -/
def RESET_INTERVAL : ℕ := 180000

/-- `TokenMonitor.isCircuitOpen`: the failure count recorded for the
endpoint (`0` when absent from the map) has reached the threshold. -/
def isCircuitOpen (failureCount : String → Option ℕ) (e : String) : Bool :=
  decide ((failureCount e).getD 0 ≥ FAILURE_THRESHOLD)

/-- `TokenMonitor.resetFailures`: set the endpoint's failure count to 0.
(Defined in the source but never invoked on any execution path of
`TokenMonitor`.) -/
def resetFailures (failureCount : String → Option ℕ) (e : String) :
    String → Option ℕ :=
  fun x => if x = e then some 0 else failureCount x

/-- Trace semantics of `TokenMonitor.recordFailure` for a single endpoint.
Each call at time `tj` increments the count and schedules an unconditional
`failureCount.set(endpoint, 0)` at `tj + RESET_INTERVAL` via `setTimeout`.
Given the list `fs` of failure-recording times, the count observed at time
`t` is therefore the number of failures after the latest timer that has
already fired: a failure at `ti ≤ t` still counts iff `ti` is strictly
later than every fired reset time `tj + R ≤ t` (at a tie the reset is
taken to run after the failure). -/
def currentFailures (fs : List ℕ) (R t : ℕ) : ℕ :=
  (fs.filter fun ti =>
    decide (ti ≤ t)
      && (fs.filter fun tj => decide (tj + R ≤ t)).all fun tj =>
           decide (tj + R < ti)).length

/-- The circuit state of the trace semantics at time `t`. -/
def circuitOpenAt (fs : List ℕ) (R t : ℕ) : Bool :=
  decide (currentFailures fs R t ≥ FAILURE_THRESHOLD)

/-- The outcome of the awaited `operation(this.connection)` call inside
`executeWithCircuitBreaker`: either a resolved value or a rejection whose
error message is inspected for `'429'`. -/
inductive OpResult where
  | ok : String → OpResult
  | err : String → OpResult
deriving DecidableEq

/-- The catch block of `TokenMonitor.executeWithCircuitBreaker`: increment
`failureCount` and `consecutiveFailures`; if the message contains `'429'`,
also increment `rateLimitHits` and stamp `lastRateLimitHit`; the error is
then rethrown. -/
def catchUpdate (m : Metrics) (msg : String) (now : ℚ) : Metrics :=
  let m1 := { m with
    failureCount := m.failureCount + 1
    consecutiveFailures := jsAdd m.consecutiveFailures (.num 1) }
  if jsIncludes msg "429" then
    { m1 with rateLimitHits := m1.rateLimitHits + 1, lastRateLimitHit := .num now }
  else m1

/-- `TokenMonitor.executeWithCircuitBreaker`, acting on the current
endpoint's metrics record.  `op` is the outcome of the awaited operation,
`t0` its start time (`startTime`) and `tEnd` the `Date.now()` at which the
subsequent updates run.  On success the code increments `successCount`,
zeroes `consecutiveFailures`, folds the latency into `averageLatency`, and
then calls `metrics.lastMinuteRequests.push(...)`; on a fresh record that
property is `undefined`, so the push throws a `TypeError` which the
function's own catch block treats as an operation failure.  Despite its
name, the function performs no circuit check whatsoever. -/
def executeWithCircuitBreaker (m : Metrics) (op : OpResult) (t0 tEnd : ℚ) :
    Metrics × Except String String :=
  match op with
  | .err msg => (catchUpdate m msg tEnd, .error msg)
  | .ok v =>
    let m1 := { m with
      successCount := m.successCount + 1
      consecutiveFailures := JSNum.num 0
      averageLatency := jsDiv (jsAdd m.averageLatency (.num (tEnd - t0))) (.num 2) }
    match m1.lastMinuteRequests with
    | none =>
      let msg := "TypeError: Cannot read properties of undefined (reading 'push')"
      (catchUpdate m1 msg tEnd, .error msg)
    | some reqs =>
      let reqs1 := (reqs ++ [tEnd]).filter fun time => decide (tEnd - time < 60000)
      ({ m1 with
          lastMinuteRequests := some reqs1
          requestsPerMinute := .num reqs1.length }, .ok v)

/-- The per-item dispatch step of `TokenMonitor.processQueue`: each batched
request is passed straight to `executeWithCircuitBreaker`.  The circuit
failure-count map is neither consulted (`isCircuitOpen` has no call site in
`TokenMonitor`) nor modified on this path, so it is returned unchanged; no
`CircuitOpenError` exists anywhere in the source.  (The `.catch` handler
re-invokes `executeWithCircuitBreaker` after 10 s for errors containing
`'429'` — again without any circuit check.) -/
def processQueueDispatch (failureCount : String → Option ℕ) (m : Metrics)
    (op : OpResult) (t0 tEnd : ℚ) :
    (String → Option ℕ) × Metrics × Except String String :=
  let r := executeWithCircuitBreaker m op t0 tEnd
  (failureCount, r.1, r.2)

/-- `RateLimiter.baseDelay` (ms). -/
def baseDelay : ℕ := 2000

/-- `RateLimiter.maxDelay` (ms). -/
def maxDelay : ℕ := 30000

/-- `RateLimiter._calculateWaitTime`:
`min(baseDelay * min(2 ** failureCount, 8), maxDelay)` — the backoff
multiplier is capped at 8 before the `maxDelay` cap is applied. -/
def calculateWaitTime (failureCount : ℕ) : ℕ :=
  min (baseDelay * min (2 ^ failureCount) 8) maxDelay

/-- Constructor parameters of `RateLimiter` (`maxTokens`, `refillRate`;
defaults 30 and 2 tokens/second; the `WalletTracker` instance uses 15
and 1). -/
structure RLConfig where
  maxTokens : ℚ
  refillRate : ℚ

/-- Mutable state of a `RateLimiter` instance: the (fractional) token
count, the `lastRefill` timestamp (ms), and the backoff `failureCount`. -/
structure RLState where
  tokens : ℚ
  lastRefill : ℚ
  failureCount : ℕ

/-- `RateLimiter._refillTokens` at wall-clock time `now` (ms):
`tokens = min(maxTokens, tokens + (now - lastRefill)/1000 * refillRate)`. -/
def refillTokens (c : RLConfig) (s : RLState) (now : ℚ) : RLState :=
  { tokens := min c.maxTokens (s.tokens + (now - s.lastRefill) / 1000 * c.refillRate)
    lastRefill := now
    failureCount := s.failureCount }

/-- `RateLimiter.getToken`: refill at `now1`; if fewer than one token
remains, suspend for `_calculateWaitTime()` and refill again at `now2`
(so `now2 ≥ now1 + waitTime`, supplied as a validity side condition);
finally decrement the token count and return `true`. -/
def getToken (c : RLConfig) (s : RLState) (now1 now2 : ℚ) : RLState × Bool :=
  let s1 := refillTokens c s now1
  if s1.tokens < 1 then
    let s2 := refillTokens c s1 now2
    ({ s2 with tokens := s2.tokens - 1 }, true)
  else
    ({ s1 with tokens := s1.tokens - 1 }, true)

/-- `RateLimiter.recordSuccess`: `failureCount = max(0, failureCount - 1)`
(truncated subtraction on `ℕ` is exactly this clamp). -/
def recordSuccess (s : RLState) : RLState :=
  { s with failureCount := s.failureCount - 1 }

/-- `RateLimiter.recordFailure`: increment `failureCount` and reset
`tokens` to 0. -/
def recordFailure (s : RLState) : RLState :=
  { tokens := 0, lastRefill := s.lastRefill, failureCount := s.failureCount + 1 }

/-- One call against a `RateLimiter` instance, with its wall-clock
arguments. -/
inductive RLStep where
  | getTok (now1 now2 : ℚ)
  | refill (now : ℚ)
  | success
  | failure

/-- Effect of a call on the limiter state. -/
def execStep (c : RLConfig) (s : RLState) : RLStep → RLState
  | .getTok n1 n2 => (getToken c s n1 n2).1
  | .refill n => refillTokens c s n
  | .success => recordSuccess s
  | .failure => recordFailure s

/-- Wall-clock validity of a call: `Date.now()` never runs backwards, and
a `setTimeout(waitTime)` suspension wakes no earlier than `waitTime`
milliseconds after it was entered. -/
def validStep (s : RLState) : RLStep → Prop
  | .getTok n1 n2 =>
    s.lastRefill ≤ n1 ∧ n1 + (calculateWaitTime s.failureCount : ℚ) ≤ n2
  | .refill n => s.lastRefill ≤ n
  | .success => True
  | .failure => True

/-- States reachable from the constructor state (`tokens = maxTokens`,
`lastRefill = Date.now()`, `failureCount = 0`) by valid calls. -/
inductive RLReachable (c : RLConfig) : RLState → Prop where
  | init (t0 : ℚ) : RLReachable c ⟨c.maxTokens, t0, 0⟩
  | step {s : RLState} {st : RLStep} :
      RLReachable c s → validStep s st → RLReachable c (execStep c s st)

/-- The per-transaction alert produced by
`WalletTracker.extractMemecoinTransaction`. -/
structure Alert where
  wallet : String
  tokenAddress : String
  amount : ℚ
  timestamp : ℚ
  signature : String
deriving DecidableEq

/-- A parsed transaction as far as `extractMemecoinTransaction` inspects
it: its first signature, the mint of its token-program instruction when
one exists with `parsed.info.mint` (`none` models a transaction that fails
the structural checks), the raw token amount, and the block time (s). -/
structure Tx where
  signature : String
  mint : Option String
  amountRaw : ℚ
  blockTime : ℚ

/-- The `sentAlerts` map of `WalletTracker` (signature → seen timestamp);
entries are only ever added. -/
def lookupSig (sig : String) : List (String × ℚ) → Option ℚ
  | [] => none
  | (s, t) :: rest => if sig = s then some t else lookupSig sig rest

/-- `WalletTracker.extractMemecoinTransaction` (the `sentAlerts` logic):
a transaction without a qualifying token-program instruction yields
nothing; a signature already present in `sentAlerts` yields nothing; and
otherwise the signature is recorded in `sentAlerts` and an alert is
returned. -/
def extractMemecoinTransaction (sentAlerts : List (String × ℚ)) (tx : Tx)
    (wallet : String) (now : ℚ) : Option Alert × List (String × ℚ) :=
  match tx.mint with
  | none => (none, sentAlerts)
  | some m =>
    if (lookupSig tx.signature sentAlerts).isSome then
      (none, sentAlerts)
    else
      (some { wallet := wallet
              tokenAddress := m
              amount := tx.amountRaw / 1000000000
              timestamp := tx.blockTime * 1000
              signature := tx.signature },
       (tx.signature, now) :: sentAlerts)

/-- A sequence of `extractMemecoinTransaction` calls (each with its
wallet and `Date.now()`), returning every alert produced, in order, and
the final `sentAlerts` cache. -/
def processTxs (sentAlerts : List (String × ℚ)) :
    List (Tx × String × ℚ) → List Alert × List (String × ℚ)
  | [] => ([], sentAlerts)
  | (tx, w, t) :: rest =>
    let r := extractMemecoinTransaction sentAlerts tx w t
    let r' := processTxs r.2 rest
    (match r.1 with
     | some a => a :: r'.1
     | none => r'.1, r'.2)


/-- The spec's health-score formula, written from the spec's words for
comparison with `calculateEndpointScore`:
`0.4*successRate + 0.3*(1 - normalizedLatency)
 + 0.3*(1 - normalizedRateLimitHits)` with
`normalizedLatency = min(1, averageLatency/referenceLatencyMs)` and
`normalizedRateLimitHits = min(1, rateLimitHits/referenceCount)`,
both clamped to `[0, 1]`. -/
def claimedHealthScore (sc fc : ℕ) (lat : ℚ) (hits : ℕ)
    (refLat refCnt : ℚ) : ℚ :=
  (4/10) * ((sc : ℚ) / ((sc : ℚ) + (fc : ℚ)))
    + (3/10) * (1 - min 1 (lat / refLat))
    + (3/10) * (1 - min 1 ((hits : ℚ) / refCnt))

/-- Concrete endpoint metrics: a well-used endpoint A (10 successes, no
failures, 100 ms average latency, no rate limiting). -/
def mA : Metrics :=
  { initMetrics 0 with successCount := 10, averageLatency := .num 100 }

/-- Concrete endpoint metrics: endpoint B (8 successes, 2 failures,
300 ms average latency, 2 rate-limit hits) — healthy (health 0.78 > 0.7)
but scored below `mA` by `calculateEndpointScore` (0.824 < 0.97). -/
def mB : Metrics :=
  { initMetrics 0 with
      successCount := 8
      failureCount := 2
      averageLatency := .num 300
      rateLimitHits := 2 }

/-- A cooldown registry in which endpoint "A" cools down until
t = 1 000 000 ms. -/
def cdA : String → Option ℚ := fun e => if e = "A" then some 1000000 else none

/-- The metrics map holding `mA` at "A" and `mB` at "B". -/
def mmapAB : String → Option Metrics := fun e =>
  if e = "A" then some mA else if e = "B" then some mB else none

/-- A circuit failure-count map recording 3 failures for endpoint "A"
(circuit open) and none elsewhere. -/
def fcOpenA : String → Option ℕ := fun e => if e = "A" then some 3 else none

/-- A circuit failure-count map recording 2 failures for endpoint "A"
(circuit still closed). -/
def fcTwoA : String → Option ℕ := fun e => if e = "A" then some 2 else none

/-- An endpoint metrics record on which the success path of
`executeWithCircuitBreaker` completes without throwing
(`lastMinuteRequests` is an array, as the legacy initializer would have
left it). -/
def mOk : Metrics :=
  { initMetrics 0 with averageLatency := .num 100, lastMinuteRequests := some [] }

/-- Concrete endpoint metrics whose 2000 ms average latency makes the
unclamped latency term of `calculateEndpointScore` negative. -/
def mLat2000 : Metrics :=
  { initMetrics 0 with successCount := 1, averageLatency := .num 2000 }


/-- The rate-limiter configuration built by the `RateLimiter` constructor
defaults: `maxTokens = 30`, `refillRate = 2`. -/
def rlDemoConfig : RLConfig := ⟨30, 2⟩

/-- A short concrete run of the rate limiter: start from the constructor
state at t = 0, record a failure (tokens drop to 0, `failureCount`
becomes 1), then call `getToken` at t = 1000 with the backoff timer
returning at t = 10000. -/
def rlDemoState : RLState :=
  execStep rlDemoConfig (execStep rlDemoConfig ⟨30, 0, 0⟩ .failure) (.getTok 1000 10000)

/-- Membership is preserved by `orderedInsertJS`. -/
theorem mem_orderedInsertJS {key : α → α → ℚ} {a x : α} {l : List α}
    (h : x ∈ orderedInsertJS key a l) : x = a ∨ x ∈ l := by
  induction l with
  | nil => simpa [orderedInsertJS] using h
  | cons b t ih =>
    by_cases hk : key a b ≤ 0
    · simpa [orderedInsertJS, hk, or_assoc] using h
    · simp only [orderedInsertJS, hk, if_false, List.mem_cons] at h
      rcases h with h | h
      · exact Or.inr (by simp [h])
      · rcases ih h with h' | h'
        · exact Or.inl h'
        · exact Or.inr (List.mem_cons_of_mem _ h')

/-- Membership is preserved by `jsSortWith`. -/
theorem mem_jsSortWith {key : α → α → ℚ} {x : α} {l : List α}
    (h : x ∈ jsSortWith key l) : x ∈ l := by
  induction l with
  | nil => simp [jsSortWith] at h
  | cons a t ih =>
    rcases mem_orderedInsertJS h with h' | h'
    · simp [h']
    · exact List.mem_cons_of_mem _ (ih h')

/-- When the comparator never asks to reorder (all values `≤ 0`, as happens
when every comparator result is `+0`), the stable sort is the identity. -/
theorem jsSortWith_eq_self {key : α → α → ℚ} {l : List α}
    (h : ∀ a ∈ l, ∀ b ∈ l, key a b ≤ 0) : jsSortWith key l = l := by
  induction l with
  | nil => rfl
  | cons a t ih =>
    have ht : jsSortWith key t = t :=
      ih fun x hx y hy =>
        h x (List.mem_cons_of_mem _ hx) y (List.mem_cons_of_mem _ hy)
    cases t with
    | nil => simp [jsSortWith, orderedInsertJS]
    | cons b t' =>
      have hab : key a b ≤ 0 := h a (by simp) b (by simp)
      show orderedInsertJS key a (jsSortWith key (b :: t')) = a :: b :: t'
      rw [ht]
      simp [orderedInsertJS, hab]


/-- The computed backoff wait is always at least `baseDelay` (2000 ms). -/
theorem waitTime_lower_bound (f : ℕ) : 2000 ≤ calculateWaitTime f := by
  have h1 : 1 ≤ 2 ^ f := Nat.one_le_two_pow
  unfold calculateWaitTime baseDelay maxDelay
  omega

/-- C6 counterexample: at `consecutiveFailures = 4` the code waits
`min(2000 * min(2^4, 8), 30000) = 16000` ms, while the claimed formula
`min(baseDelay * 2^consecutiveFailures, maxDelay)` gives 30000 ms. -/
theorem waitTime_neq_claimed_at_four :
    calculateWaitTime 4 = 16000 ∧
    min (baseDelay * 2 ^ 4) maxDelay = 30000 ∧
    (16000 : ℕ) ≠ 30000 := by
  decide

/-- C6 (amended): for every `consecutiveFailures` value `f`, the wait
computed by `RateLimiter._calculateWaitTime` equals
`min(baseDelay * 2^f, 16000)` — the backoff multiplier is capped at 8, so
the effective ceiling is 16000 ms, and the 30000 ms `maxDelay` cap is
never the binding constraint. -/
theorem waitTime_eq_min_16000 (f : ℕ) :
    calculateWaitTime f = min (baseDelay * 2 ^ f) 16000 := by
  by_cases h : f ≤ 3
  · interval_cases f <;> decide
  · have h16 : 2 ^ 4 ≤ 2 ^ f := Nat.pow_le_pow_right (by norm_num) (by omega)
    unfold calculateWaitTime baseDelay maxDelay
    omega

/-- C4 counterexample: with failures recorded at t = 0, 10000 and 20000 ms
and `RESET_INTERVAL = 180000`, the breaker is open at t = 20000, but the
reset timer scheduled by the first failure fires at t = 180000 and zeroes
the count — the breaker is closed at t = 180000, strictly earlier than
`20000 + 180000`, the instant the claim mandates. -/
theorem breaker_closes_early :
    circuitOpenAt [0, 10000, 20000] 180000 20000 = true ∧
    currentFailures [0, 10000, 20000] 180000 180000 = 0 ∧
    180000 < 20000 + 180000 := by
  decide

/-- C4 (amended): every call to `recordFailure` schedules an unconditional
zeroing of the endpoint's failure count `RESET_INTERVAL` after that call;
consequently, at any time `t` that lies `RESET_INTERVAL` or more past some
recorded failure `tj`, with no later failure recorded after that timer
fired, `currentFailures` is 0 and the circuit is closed — this can occur
before `RESET_INTERVAL` has elapsed since the circuit entered the open
state. -/
theorem failures_zeroed_after_reset_timer (fs : List ℕ) (R t tj : ℕ)
    (hmem : tj ∈ fs) (hfired : tj + R ≤ t)
    (hlast : ∀ ti ∈ fs, ti ≤ t → ti ≤ tj + R) :
    currentFailures fs R t = 0 := by
  unfold currentFailures
  rw [List.length_eq_zero]
  rw [List.filter_eq_nil_iff]
  intro ti hti
  simp only [Bool.and_eq_true, decide_eq_true_eq, List.all_eq_true, not_and]
  intro hle hall
  have h1 : tj ∈ fs.filter fun tj => decide (tj + R ≤ t) :=
    List.mem_filter.mpr ⟨hmem, by simpa using hfired⟩
  have h2 := hall tj h1
  have h3 := hlast ti hti hle
  simp only [decide_eq_true_eq] at h2
  omega

/-- Witness for the C4 amended theorem: with failures at t = 0, 10000,
20000 and R = 180000, the count is 0 at t = 200000. -/
theorem failures_zeroed_witness :
    currentFailures [0, 10000, 20000] 180000 200000 = 0 :=
  failures_zeroed_after_reset_timer [0, 10000, 20000] 180000 200000 20000
    (by decide) (by decide) (by decide)

/-- C1: endpoint "A" has 3 recorded failures, so `isCircuitOpen` reports
its circuit open; nevertheless the queue dispatch path
(`processQueue` → `executeWithCircuitBreaker`) executes the queued
operation — its failure is recorded in the endpoint metrics and its own
error (not any `CircuitOpenError`, which exists nowhere in the source) is
what propagates, and the circuit map is not even consulted or changed. -/
theorem circuit_open_dispatch_executes :
    isCircuitOpen fcOpenA "A" = true ∧
    (processQueueDispatch fcOpenA (initMetrics 0) (.err "boom") 0 50).2.2 =
      .error "boom" ∧
    (processQueueDispatch fcOpenA (initMetrics 0) (.err "boom") 0 50).2.1.failureCount = 1 ∧
    (processQueueDispatch fcOpenA (initMetrics 0) (.err "boom") 0 50).1 = fcOpenA := by
  exact ⟨rfl, rfl, rfl, rfl⟩

/-- C3: the very first successful operation on a freshly initialized
endpoint record crashes `executeWithCircuitBreaker`'s success path: the
record created by `initializeEndpointMetrics` lacks `lastMinuteRequests`,
so `metrics.lastMinuteRequests.push(...)` throws a `TypeError`, which the
function's own catch block then records as a failure — the completed
operation increments `successCount` and `failureCount` both, leaves
`averageLatency` as `NaN`, and the caller sees a thrown `TypeError`
instead of an error-free metrics update. -/
theorem first_success_throws_typeerror :
    (executeWithCircuitBreaker (initMetrics 0) (.ok "ok") 1000 1100).2 =
      .error "TypeError: Cannot read properties of undefined (reading 'push')" ∧
    (executeWithCircuitBreaker (initMetrics 0) (.ok "ok") 1000 1100).1.successCount = 1 ∧
    (executeWithCircuitBreaker (initMetrics 0) (.ok "ok") 1000 1100).1.failureCount = 1 ∧
    (executeWithCircuitBreaker (initMetrics 0) (.ok "ok") 1000 1100).1.averageLatency = .nan ∧
    (executeWithCircuitBreaker (initMetrics 0) (.ok "ok") 1000 1100).1.consecutiveFailures =
      .num 1 := by
  refine ⟨rfl, rfl, rfl, rfl, ?_⟩
  have h : (executeWithCircuitBreaker (initMetrics 0) (.ok "ok") 1000 1100).1.consecutiveFailures =
      jsAdd (.num 0) (.num 1) := rfl
  rw [h]
  norm_num [jsAdd]

/-- C5: the dispatch path never writes the circuit failure-count map, so a
successful operation on a closed endpoint ("A" with 2 recorded failures)
leaves `currentFailures` at 2 rather than resetting it to 0; the
`resetFailures` method that would perform the claimed reset exists but has
no call site. -/
theorem success_does_not_reset_circuit :
    (∀ (fc : String → Option ℕ) (m : Metrics) (op : OpResult) (t0 tEnd : ℚ),
        (processQueueDispatch fc m op t0 tEnd).1 = fc) ∧
    isCircuitOpen fcTwoA "A" = false ∧
    (processQueueDispatch fcTwoA mOk (.ok "v") 0 100).2.2 = .ok "v" ∧
    (processQueueDispatch fcTwoA mOk (.ok "v") 0 100).1 "A" = some 2 ∧
    (2 : ℕ) ≠ 0 ∧
    resetFailures fcTwoA "A" "A" = some 0 := by
  exact ⟨fun fc m op t0 tEnd => rfl, rfl, rfl, rfl, by decide, rfl⟩



/-- C2 counterexample: endpoint "A" is inside its cooldown window at
t = 0 and has the strictly highest `calculateEndpointScore`, yet
`selectBestEndpoint` chooses "A" as the active endpoint — best-endpoint
selection performs no cooldown check. -/
theorem cooling_endpoint_selected_best :
    isEndpointCooling cdA "A" 0 = true ∧
    jsGt (calculateEndpointScore mA) (calculateEndpointScore mB) = true ∧
    selectBestEndpoint [("A", mA), ("B", mB)] = some "A" := by
  refine ⟨rfl, ?_, ?_⟩
  · norm_num [calculateEndpointScore, mA, mB, initMetrics, jsDiv, jsAdd, jsMul, jsSub, jsGt]
  · have hsA : calculateEndpointScore mA = .num (97/100) := by
      norm_num [calculateEndpointScore, mA, initMetrics, jsDiv, jsAdd, jsMul, jsSub]
    have hsB : calculateEndpointScore mB = .num (103/125) := by
      norm_num [calculateEndpointScore, mB, initMetrics, jsDiv, jsAdd, jsMul, jsSub]
    simp only [selectBestEndpoint, List.map, hsA, hsB]
    norm_num [jsSortWith, orderedInsertJS, descKey, sortCompareVal, jsSub]

/-- C2 (amended): the rotation step (`rotateConnection`) never selects an
endpoint within its cooldown window, even when it has the best health
score — its candidate filter removes cooling endpoints before sorting.
`selectBestEndpoint`, by contrast, returns the strictly highest-scoring
endpoint irrespective of any cooldown state (no cooldown registry enters
its computation at all). -/
theorem rotation_respects_cooldown :
    (∀ (endpoints : List String) (mm : String → Option Metrics)
        (cd : String → Option ℚ) (now : ℚ) (e : String),
        rotateSelect endpoints mm cd now = some e →
        isEndpointCooling cd e now = false) ∧
    (∀ (ea eb : String) (ma mb : Metrics) (qa qb : ℚ),
        calculateEndpointScore ma = .num qa →
        calculateEndpointScore mb = .num qb → qb < qa →
        selectBestEndpoint [(ea, ma), (eb, mb)] = some ea) := by
  constructor
  · intro endpoints mm cd now e h
    simp only [rotateSelect] at h
    set healthy := endpoints.filter (fun e =>
      !isEndpointCooling cd e now
        && jsGt (getEndpointHealth mm e) (.num (7/10))) with hh
    cases hs : jsSortWith (descKey (getEndpointHealth mm)) healthy with
    | nil => rw [hs] at h; simp at h
    | cons x xs =>
      rw [hs] at h
      simp only [List.head?_cons, Option.some.injEq] at h
      subst h
      have hx : x ∈ healthy := mem_jsSortWith (hs ▸ List.mem_cons_self x xs)
      have := List.of_mem_filter hx
      simp only [Bool.and_eq_true, Bool.not_eq_true'] at this
      exact this.1
  · intro ea eb ma mb qa qb ha hb hlt
    simp only [selectBestEndpoint, List.map, ha, hb]
    have hkey : descKey Prod.snd (ea, JSNum.num qa) (eb, JSNum.num qb) ≤ 0 := by
      simp only [descKey, sortCompareVal, jsSub]
      linarith
    simp [jsSortWith, orderedInsertJS, hkey]

/-- Witness for the C2 amended theorem: with "A" cooling and "B" healthy,
rotation selects "B", which is indeed not cooling; and with `mA` scoring
0.97 against `mB`'s 0.824, `selectBestEndpoint` picks "A". -/
theorem rotation_respects_cooldown_witness :
    isEndpointCooling cdA "B" 0 = false ∧
    selectBestEndpoint [("A", mA), ("B", mB)] = some "A" := by
  constructor
  · apply rotation_respects_cooldown.1 ["A", "B"] mmapAB cdA 0 "B"
    have hA : isEndpointCooling cdA "A" 0 = true := rfl
    have hB : isEndpointCooling cdA "B" 0 = false := rfl
    have hm : mmapAB "B" = some mB := rfl
    have hgB : jsGt (getEndpointHealth mmapAB "B") (.num (7/10)) = true := by
      rw [getEndpointHealth, hm]
      norm_num [mB, initMetrics, getEndpointHealthM, jsDiv, jsAdd, jsMul, jsSub, jsMax, jsGt]
    simp only [rotateSelect, List.filter, hA, hB, hgB, Bool.not_true, Bool.not_false,
      Bool.false_and, Bool.true_and]
    rfl
  · apply rotation_respects_cooldown.2 "A" "B" mA mB (97/100) (103/125)
    · norm_num [calculateEndpointScore, mA, initMetrics, jsDiv, jsAdd, jsMul, jsSub]
    · norm_num [calculateEndpointScore, mB, initMetrics, jsDiv, jsAdd, jsMul, jsSub]
    · norm_num



/-- C7 counterexample: for an endpoint with 1 success, 0 failures, 2000 ms
average latency and 0 rate-limit hits, `calculateEndpointScore` yields
`0.4 + 0.3*(1 - 2) + 0.3*1 = 0.4` — the latency term goes negative — while
the claimed formula with its `min(1, averageLatency/referenceLatencyMs)`
clamp yields `0.4 + 0.3*0 + 0.3*1 = 0.7`. -/
theorem score_unclamped_differs_from_claim :
    calculateEndpointScore mLat2000 = .num (2/5) ∧
    claimedHealthScore 1 0 2000 0 1000 100 = 7/10 ∧
    (2 : ℚ) / 5 ≠ 7/10 := by
  refine ⟨?_, ?_, by norm_num⟩
  · norm_num [calculateEndpointScore, mLat2000, initMetrics, jsDiv, jsAdd, jsMul, jsSub]
  · norm_num [claimedHealthScore]

/-- C7 (amended): whenever an endpoint has at least one completed
operation and a numeric `averageLatency`, `calculateEndpointScore` equals
`0.4*successRate + 0.3*(1 - averageLatency/1000) + 0.3*(1 - hits/100)`
with NO clamping of the latency and rate-limit terms (either can go
negative), while the other scoring function, `getEndpointHealth`, uses the
different weighting `0.4*max(0, 1 - hits/10) + 0.4*successRate
+ 0.2*max(0, 1 - averageLatency/1000)`, clamped from below only. -/
theorem endpoint_score_formulas (m : Metrics) (lat : ℚ)
    (hlat : m.averageLatency = .num lat)
    (hpos : 0 < m.successCount + m.failureCount) :
    calculateEndpointScore m =
      .num ((m.successCount : ℚ) / ((m.successCount : ℚ) + (m.failureCount : ℚ)) * (4/10)
        + (1 - lat / 1000) * (3/10) + (1 - (m.rateLimitHits : ℚ) / 100) * (3/10)) ∧
    getEndpointHealthM m =
      .num (max 0 (1 - (m.rateLimitHits : ℚ) / 10) * (4/10)
        + (m.successCount : ℚ) / ((m.successCount : ℚ) + (m.failureCount : ℚ)) * (4/10)
        + max 0 (1 - lat / 1000) * (2/10)) := by
  have hq : (0 : ℚ) < (m.successCount : ℚ) + (m.failureCount : ℚ) := by
    exact_mod_cast hpos
  have hden : (m.successCount : ℚ) + (m.failureCount : ℚ) ≠ 0 := hq.ne'
  constructor
  · simp only [calculateEndpointScore, hlat, jsDiv, jsSub, jsAdd, jsMul,
      Nat.cast_add, if_neg hden]
    norm_num
  · simp only [getEndpointHealthM, hlat, jsDiv, jsSub, jsAdd, jsMul, jsMax,
      Nat.cast_add, if_neg hden]
    norm_num

/-- Witness for the C7 amended theorem, instantiated at `mB` (8 successes,
2 failures, 300 ms latency, 2 rate-limit hits). -/
theorem endpoint_score_formulas_witness :
    calculateEndpointScore mB =
      .num ((mB.successCount : ℚ) / ((mB.successCount : ℚ) + (mB.failureCount : ℚ)) * (4/10)
        + (1 - (300 : ℚ) / 1000) * (3/10) + (1 - (mB.rateLimitHits : ℚ) / 100) * (3/10)) ∧
    getEndpointHealthM mB =
      .num (max 0 (1 - (mB.rateLimitHits : ℚ) / 10) * (4/10)
        + (mB.successCount : ℚ) / ((mB.successCount : ℚ) + (mB.failureCount : ℚ)) * (4/10)
        + max 0 (1 - (300 : ℚ) / 1000) * (2/10)) :=
  endpoint_score_formulas mB 300 rfl (by decide)



/-- C10: on the record built by `initializeEndpointMetrics` (zero
completed operations), both scoring functions compute `0/0` (and read the
absent `averageLatency`), producing `NaN`; any `>` comparison against a
`NaN` score is false (so a fresh endpoint also fails rotation's
`health > 0.7` test); and because the sort comparator returns `NaN` for
every pair — which ECMAScript `SortCompare` coerces to `+0` — the stable
sort leaves the entries in Map-insertion order, so `selectBestEndpoint`
over any list of fresh endpoints returns simply the first configured
endpoint. -/
theorem fresh_endpoint_scores_nan (now : ℚ) :
    calculateEndpointScore (initMetrics now) = .nan ∧
    getEndpointHealthM (initMetrics now) = .nan ∧
    jsGt (getEndpointHealthM (initMetrics now)) (.num (7/10)) = false ∧
    jsGt (calculateEndpointScore (initMetrics now))
      (calculateEndpointScore (initMetrics now)) = false ∧
    ∀ es : List String,
      selectBestEndpoint (initializeEndpointMetrics es now) = es.head? := by
  have h1 : calculateEndpointScore (initMetrics now) = .nan := by
    norm_num [calculateEndpointScore, initMetrics, jsDiv, jsAdd, jsMul, jsSub]
  have h2 : getEndpointHealthM (initMetrics now) = .nan := by
    norm_num [getEndpointHealthM, initMetrics, jsDiv, jsAdd, jsMul, jsSub, jsMax]
  refine ⟨h1, h2, by rw [h2]; rfl, by rw [h1]; rfl, ?_⟩
  intro es
  simp only [selectBestEndpoint, initializeEndpointMetrics, List.map_map,
    Function.comp_def, h1]
  have hsort :
      jsSortWith (descKey Prod.snd) (es.map fun e => (e, JSNum.nan)) =
        es.map fun e => (e, JSNum.nan) := by
    apply jsSortWith_eq_self
    intro a ha b hb
    obtain ⟨ea, _, rfl⟩ := List.mem_map.mp ha
    obtain ⟨eb, _, rfl⟩ := List.mem_map.mp hb
    simp [descKey, sortCompareVal, jsSub]
  rw [hsort, List.head?_map]
  cases es with
  | nil => rfl
  | cons x xs => rfl



/-- Unfolding `lookupSig` at a cons cell. -/
theorem lookupSig_cons (sig s' : String) (t' : ℚ) (l : List (String × ℚ)) :
    lookupSig sig ((s', t') :: l) = if sig = s' then some t' else lookupSig sig l := rfl

/-- Every alert emitted by a run of `extractMemecoinTransaction` calls
carries a signature that was not yet in the `sentAlerts` cache when the
run started. -/
theorem processTxs_fresh :
    ∀ (txs : List (Tx × String × ℚ)) (l : List (String × ℚ)) (a : Alert),
      a ∈ (processTxs l txs).1 → lookupSig a.signature l = none := by
  intro txs
  induction txs with
  | nil => intro l a ha; simp [processTxs] at ha
  | cons item rest ih =>
    obtain ⟨tx, w, t⟩ := item
    intro l a ha
    simp only [processTxs] at ha
    cases hm : tx.mint with
    | none =>
      simp only [extractMemecoinTransaction, hm] at ha
      exact ih l a ha
    | some mint =>
      by_cases hseen : (lookupSig tx.signature l).isSome
      · simp only [extractMemecoinTransaction, hm, hseen, if_true] at ha
        exact ih l a ha
      · simp only [extractMemecoinTransaction, hm, hseen, if_false, Bool.false_eq_true,
          List.mem_cons] at ha
        rcases ha with rfl | ha
        · simpa using Option.not_isSome_iff_eq_none.mp hseen
        · have h2 := ih _ a ha
          rw [lookupSig_cons] at h2
          split at h2
          · exact absurd h2 (by simp)
          · exact h2

/-- C9: across any sequence of transactions handed to the wallet
tracker — including one in which the same signature reappears in a later
signature fetch — the alerts emitted have pairwise-distinct signatures,
and none of them repeats a signature already recorded in the `sentAlerts`
cache: each signature is alerted at most once, because
`extractMemecoinTransaction` records a signature in `sentAlerts` the
moment it emits for it and entries are never removed. -/
theorem signature_alerted_at_most_once
    (sentAlerts : List (String × ℚ)) (txs : List (Tx × String × ℚ)) :
    ((processTxs sentAlerts txs).1.map Alert.signature).Nodup ∧
    ((processTxs sentAlerts txs).1.all fun a =>
      (lookupSig a.signature sentAlerts).isNone) = true := by
  constructor
  · induction txs generalizing sentAlerts with
    | nil => simp [processTxs]
    | cons item rest ih =>
      obtain ⟨tx, w, t⟩ := item
      simp only [processTxs]
      cases hm : tx.mint with
      | none =>
        simp only [extractMemecoinTransaction, hm]
        exact ih sentAlerts
      | some mint =>
        by_cases hseen : (lookupSig tx.signature sentAlerts).isSome
        · simp only [extractMemecoinTransaction, hm, hseen, if_true]
          exact ih sentAlerts
        · simp only [extractMemecoinTransaction, hm, hseen, if_false, Bool.false_eq_true,
            List.map_cons, List.nodup_cons]
          constructor
          · intro hmem
            obtain ⟨b, hb, hsig⟩ := List.mem_map.mp hmem
            have hfr := processTxs_fresh rest ((tx.signature, t) :: sentAlerts) b hb
            rw [lookupSig_cons, hsig, if_pos rfl] at hfr
            exact absurd hfr (by simp)
          · exact ih ((tx.signature, t) :: sentAlerts)
  · rw [List.all_eq_true]
    intro a ha
    simp only [Option.isNone_iff_eq_none]
    exact processTxs_fresh txs sentAlerts a ha



/-- The token count after `_refillTokens` is exactly the clamped refill
formula. -/
theorem refill_tokens_eq (c : RLConfig) (s : RLState) (now : ℚ) :
    (refillTokens c s now).tokens =
      min c.maxTokens (s.tokens + (now - s.lastRefill) / 1000 * c.refillRate) := rfl

/-- `_refillTokens` stamps `lastRefill` with the current time. -/
theorem refill_lastRefill_eq (c : RLConfig) (s : RLState) (now : ℚ) :
    (refillTokens c s now).lastRefill = now := rfl

/-- A refill at a non-earlier wall-clock instant keeps the token count in
`[0, maxTokens]`. -/
theorem refill_bounds (c : RLConfig) (s : RLState) (now : ℚ)
    (h0 : 0 ≤ s.tokens) (hcap0 : 0 ≤ c.maxTokens) (hrate : 0 ≤ c.refillRate)
    (hmono : s.lastRefill ≤ now) :
    0 ≤ (refillTokens c s now).tokens ∧ (refillTokens c s now).tokens ≤ c.maxTokens := by
  rw [refill_tokens_eq]
  constructor
  · apply le_min hcap0
    have hx : 0 ≤ (now - s.lastRefill) / 1000 * c.refillRate :=
      mul_nonneg (div_nonneg (by linarith) (by norm_num)) hrate
    linarith
  · exact min_le_left _ _

/-- `getToken` keeps the token count in `[0, maxTokens]`: either at least
one token is present after the first refill, or the backoff suspension
(at least 2000 ms) lets the second refill accrue at least one token
whenever `refillRate ≥ 1/2` token/s, so the final decrement never drives
the count negative. -/
theorem getToken_bounds (c : RLConfig) (s : RLState) (n1 n2 : ℚ)
    (h0 : 0 ≤ s.tokens) (hcap : 1 ≤ c.maxTokens) (hrate : 1/2 ≤ c.refillRate)
    (hm1 : s.lastRefill ≤ n1)
    (hm2 : n1 + (calculateWaitTime s.failureCount : ℚ) ≤ n2) :
    0 ≤ (getToken c s n1 n2).1.tokens ∧ (getToken c s n1 n2).1.tokens ≤ c.maxTokens := by
  have hrate0 : (0 : ℚ) ≤ c.refillRate := by linarith
  have hcap0 : (0 : ℚ) ≤ c.maxTokens := by linarith
  have hb1 := refill_bounds c s n1 h0 hcap0 hrate0 hm1
  by_cases hlt : (refillTokens c s n1).tokens < 1
  · have hG : (getToken c s n1 n2).1.tokens =
        (refillTokens c (refillTokens c s n1) n2).tokens - 1 := by
      simp only [getToken]
      rw [if_pos hlt]
    have ht2 : (refillTokens c (refillTokens c s n1) n2).tokens =
        min c.maxTokens ((refillTokens c s n1).tokens + (n2 - n1) / 1000 * c.refillRate) := by
      rw [refill_tokens_eq, refill_lastRefill_eq]
    have hwq : (2000 : ℚ) ≤ (calculateWaitTime s.failureCount : ℚ) := by
      exact_mod_cast waitTime_lower_bound s.failureCount
    have h2 : (2 : ℚ) ≤ (n2 - n1) / 1000 := by
      rw [le_div_iff₀ (by norm_num : (0:ℚ) < 1000)]
      linarith
    have hadd : (1 : ℚ) ≤ (n2 - n1) / 1000 * c.refillRate := by nlinarith
    have h1le : (1 : ℚ) ≤ (refillTokens c (refillTokens c s n1) n2).tokens := by
      rw [ht2]
      apply le_min hcap
      linarith [hb1.1]
    have hle : (refillTokens c (refillTokens c s n1) n2).tokens ≤ c.maxTokens := by
      rw [ht2]
      exact min_le_left _ _
    rw [hG]
    constructor <;> linarith
  · have hG : (getToken c s n1 n2).1.tokens = (refillTokens c s n1).tokens - 1 := by
      simp only [getToken]
      rw [if_neg hlt]
    push_neg at hlt
    rw [hG]
    constructor <;> linarith [hb1.2]

/-- C8: on every state reachable from the `RateLimiter` constructor state
by any sequence of `getToken`, `_refillTokens`, `recordSuccess` and
`recordFailure` calls (under a monotone clock whose suspensions last at
least the computed wait), the token count stays within `[0, maxTokens]`;
and each refill adds exactly `elapsedSeconds * refillRate` tokens, clamped
at capacity.  The hypotheses `1 ≤ maxTokens` and `1/2 ≤ refillRate` hold
for both instantiations in the source (30/2 by default, 15/1 in
`WalletTracker`). -/
theorem rate_bucket_tokens_in_range (c : RLConfig) (s : RLState)
    (hcap : 1 ≤ c.maxTokens) (hrate : 1/2 ≤ c.refillRate)
    (h : RLReachable c s) :
    (0 ≤ s.tokens ∧ s.tokens ≤ c.maxTokens) ∧
    ∀ now : ℚ, (refillTokens c s now).tokens =
      min c.maxTokens (s.tokens + (now - s.lastRefill) / 1000 * c.refillRate) := by
  refine ⟨?_, fun now => rfl⟩
  induction h with
  | init t0 => exact ⟨by linarith, le_refl _⟩
  | step hreach hvalid ih =>
    rename_i s' st
    cases st with
    | getTok n1 n2 => exact getToken_bounds c s' n1 n2 ih.1 hcap hrate hvalid.1 hvalid.2
    | refill n => exact refill_bounds c s' n ih.1 (by linarith) (by linarith) hvalid
    | success => exact ih
    | failure =>
      rw [show (execStep c s' .failure).tokens = 0 from rfl]
      exact ⟨le_refl 0, by linarith⟩

/-- Witness for C8 at the constructor configuration (30 tokens, 2
tokens/s) after the concrete run `rlDemoState`. -/
theorem rate_bucket_tokens_in_range_witness :
    (0 ≤ rlDemoState.tokens ∧ rlDemoState.tokens ≤ rlDemoConfig.maxTokens) ∧
    ∀ now : ℚ, (refillTokens rlDemoConfig rlDemoState now).tokens =
      min rlDemoConfig.maxTokens
        (rlDemoState.tokens +
          (now - rlDemoState.lastRefill) / 1000 * rlDemoConfig.refillRate) := by
  apply rate_bucket_tokens_in_range
  · norm_num [rlDemoConfig]
  · norm_num [rlDemoConfig]
  · refine RLReachable.step (RLReachable.step (RLReachable.init 0) trivial) ?_
    show (0 : ℚ) ≤ 1000 ∧ (1000 : ℚ) + ((calculateWaitTime 1 : ℕ) : ℚ) ≤ 10000
    have h4 : calculateWaitTime 1 = 4000 := by decide
    rw [h4]
    norm_num


end Solbot
